import Mathlib

/-!
Shallow embedding of `random_photo_selector.py`.

The program scans the immediate subdirectories of a root folder, samples a
number of image files from each, and optionally writes a CSV of the selection
and copies the selected files to an output directory.

The filesystem is modelled explicitly (`FS`): a list of directory paths, a
list of binary files carrying a value (`FileVal`, whose `mtime` field stands
for the metadata that `shutil.copy2` duplicates), and a list of text files
holding CSV rows. Paths are lists of components, so `os.path.join a b` is
`a ++ [b]` and `os.path.basename` is the last component. `os.listdir` on a
missing directory raises, which the embedding renders as `Except.error`.
Randomness (`random.sample`) is passed in as a list of draws; each draw picks
one remaining element, giving sampling without replacement. Log output is
returned as a list of structured `LogEvent`s.
-/

abbrev FPath := List String

structure FileVal where
  bytes : Nat
  mtime : Nat
deriving DecidableEq

structure FS where
  dirs : List FPath
  files : List (FPath × FileVal)
  textFiles : List (FPath × List (List String))
deriving DecidableEq

inductive PyErr where
  | fileNotFound (p : FPath)
deriving DecidableEq

inductive LogEvent where
  | warnNoImages (subdir : FPath)
  | infoFewer (subdir : FPath) (requested available : Nat)
  | warnNoSubdirs (root : FPath)
  | errorRootInvalid (root : FPath)
  | errorNumImages
  | infoSelecting (root : FPath)
  | infoNoImagesSelected
  | infoCsvSaved (p : FPath)
  | errorCsvFailed (p : FPath)
  | infoRenamed (oldName newName : String)
  | infoCopied (src dest : FPath)
  | errorCopyFailed (src dest : FPath)
  | errorCopyAll (outputDir : FPath)
  | infoAllCopied (outputDir : FPath)
  | infoDisplayed (p : FPath)
  | infoCompleted
deriving DecidableEq

/-- All paths present in the filesystem. -/
def FS.allPaths (fs : FS) : List FPath :=
  fs.dirs ++ fs.files.map Prod.fst ++ fs.textFiles.map Prod.fst

/-- `os.path.isdir`. -/
def FS.isDir (fs : FS) (p : FPath) : Bool := decide (p ∈ fs.dirs)

/-- `os.path.isfile`. -/
def FS.isFile (fs : FS) (p : FPath) : Bool :=
  decide (p ∈ fs.files.map Prod.fst) || decide (p ∈ fs.textFiles.map Prod.fst)

/-- `os.path.exists`. -/
def FS.existsP (fs : FS) (p : FPath) : Bool := fs.isDir p || fs.isFile p

/-- `q` is an immediate child path of `p`. -/
def isChildOf (q p : FPath) : Bool :=
  decide (q.take p.length = p) && decide (q.length = p.length + 1)

/-- The entry names directly inside directory `p`. -/
def FS.childNames (fs : FS) (p : FPath) : List String :=
  fs.allPaths.filterMap (fun q => if isChildOf q p then q.getLast? else none)

/-- `os.listdir`: raises `FileNotFoundError` when `p` is not a directory. -/
def listdir (fs : FS) (p : FPath) : Except PyErr (List String) :=
  if fs.isDir p then .ok (fs.childNames p) else .error (.fileNotFound p)

/-- Well-formed filesystem: no path occurs twice. -/
def FS.WF (fs : FS) : Prop := fs.allPaths.Nodup

/-- `os.path.basename` of a component path. -/
def basename (p : FPath) : String := p.getLastD ""

/-- `get_subdirectories`: full paths of the immediate subdirectories. -/
def get_subdirectories (fs : FS) (root_folder : FPath) : Except PyErr (List FPath) :=
  match listdir fs root_folder with
  | .error e => .error e
  | .ok names =>
    .ok ((names.filter (fun d => fs.isDir (root_folder ++ [d]))).map
      (fun d => root_folder ++ [d]))

def supported_extensions : List String := [".jpg", ".jpeg", ".png", ".gif", ".bmp", ".tiff"]

/-- `str.lower()`, written over the character list so that it evaluates by
kernel reduction. -/
def strLower (s : String) : String := String.mk (s.toList.map Char.toLower)

/-- `str.endswith(suffix)`, written over the character list so that it
evaluates by kernel reduction. -/
def strEndsWith (s suffix : String) : Bool :=
  decide (s.toList.drop (s.toList.length - suffix.toList.length) = suffix.toList)

/-- `file.lower().endswith(supported_extensions)`. -/
def isImageName (name : String) : Bool :=
  supported_extensions.any (fun e => strEndsWith (strLower name) e)

/-- `get_image_files`: image files directly inside `folder_path`. -/
def get_image_files (fs : FS) (folder_path : FPath) : Except PyErr (List FPath) :=
  match listdir fs folder_path with
  | .error e => .error e
  | .ok names =>
    .ok ((names.filter (fun f => isImageName f && fs.isFile (folder_path ++ [f]))).map
      (fun f => folder_path ++ [f]))

/-- `random.sample(xs, k)`: each draw removes the chosen element, so the
sample is taken without replacement. The draw stream `rng` supplies the
random indices. -/
def randomSample {α : Type} : List Nat → List α → Nat → List α
  | _, _, 0 => []
  | _, [], _ + 1 => []
  | rng, x :: xs, k + 1 =>
    let r := rng.headD 0 % (x :: xs).length
    (x :: xs).getD r x :: randomSample rng.tail ((x :: xs).eraseIdx r) k

/-- `select_images_from_single_subfolder`. -/
def select_images_from_single_subfolder (fs : FS) (rng : List Nat) (subdir : FPath)
    (num_images : Nat) : Except PyErr ((String × List FPath) × List LogEvent) :=
  match get_image_files fs subdir with
  | .error e => .error e
  | .ok images =>
    if images.isEmpty then
      .ok ((basename subdir, []), [.warnNoImages subdir])
    else if images.length < num_images then
      .ok ((basename subdir, images), [.infoFewer subdir num_images images.length])
    else
      .ok ((basename subdir, randomSample rng images num_images), [])

/-- The per-subdirectory loop of `select_random_images_from_subfolders`:
subfolders whose selection is empty contribute no entry. -/
def selectLoop (fs : FS) (rng : FPath → List Nat) (num_images : Nat) :
    List FPath → Except PyErr (List (String × List FPath) × List LogEvent)
  | [] => .ok ([], [])
  | subdir :: rest =>
    match select_images_from_single_subfolder fs (rng subdir) subdir num_images with
    | .error e => .error e
    | .ok ((name, sel), log1) =>
      match selectLoop fs rng num_images rest with
      | .error e => .error e
      | .ok (selRest, log2) =>
        .ok ((if sel.isEmpty then selRest else (name, sel) :: selRest), log1 ++ log2)

/-- `select_random_images_from_subfolders`. -/
def select_random_images_from_subfolders (fs : FS) (rng : FPath → List Nat)
    (root_folder : FPath) (num_images : Nat) :
    Except PyErr (List (String × List FPath) × List LogEvent) :=
  match get_subdirectories fs root_folder with
  | .error e => .error e
  | .ok subdirs =>
    if subdirs.isEmpty then .ok ([], [.warnNoSubdirs root_folder])
    else selectLoop fs rng num_images subdirs

/-- Render a component path the way `os.path.join` produces it. -/
def pathStr (p : FPath) : String := String.intercalate "/" p

/-- The rows `csv.writer` emits: the header, then one row per
(subfolder, image path) pair, in selection order. -/
def csvRows (sel : List (String × List FPath)) : List (List String) :=
  ["Subfolder", "Image Path"] ::
    sel.flatMap (fun e => e.2.map (fun p => [e.1, pathStr p]))

/-- Reading the CSV back as (subfolder, path) pairs: drop the header,
take the first two fields of each row. -/
def parseCsv (rows : List (List String)) : List (String × String) :=
  (rows.drop 1).map (fun r => (r.headD "", (r.drop 1).headD ""))

/-- The (subfolder, rendered path) pairs of a selection. -/
def selPairs (sel : List (String × List FPath)) : List (String × String) :=
  sel.flatMap (fun e => e.2.map (fun p => (e.1, pathStr p)))

/-- Write a text file, replacing any previous file at that path
(`open(..., mode='w')` truncates). -/
def FS.setTextFile (fs : FS) (p : FPath) (rows : List (List String)) : FS :=
  { fs with textFiles := (p, rows) :: fs.textFiles.filter (fun e => !(e.1 == p)) }

/-- Content of the text file at `p`, if any. -/
def FS.lookupText (fs : FS) (p : FPath) : Option (List (List String)) :=
  (fs.textFiles.find? (fun e => e.1 == p)).map Prod.snd

/-- `save_selected_images_to_csv`: the `csvFail` flag models the caught
write exception (logged, non-fatal, filesystem left unchanged). -/
def save_selected_images_to_csv (csvFail : Bool) (fs : FS)
    (selected_images_dict : List (String × List FPath)) (csv_path : FPath) :
    FS × List LogEvent :=
  if csvFail then (fs, [.errorCsvFailed csv_path])
  else (fs.setTextFile csv_path (csvRows selected_images_dict), [.infoCsvSaved csv_path])

/-- `os.makedirs(p, exist_ok=True)` (parent creation elided: the claims
only concern the directory itself). -/
def FS.mkdirp (fs : FS) (p : FPath) : FS :=
  if fs.isDir p then fs else { fs with dirs := fs.dirs ++ [p] }

/-- Write a binary file at `p`, replacing any previous one. -/
def FS.setFile (fs : FS) (p : FPath) (v : FileVal) : FS :=
  { fs with files := fs.files.filter (fun e => !(e.1 == p)) ++ [(p, v)] }

/-- Value of the binary file at `p`, if any. -/
def FS.lookupFile (fs : FS) (p : FPath) : Option FileVal :=
  (fs.files.find? (fun e => e.1 == p)).map Prod.snd

/-- `os.path.splitext` on a base name: split at the last dot, ignoring any
leading dots. -/
def splitext (s : String) : String × String :=
  let cs := s.toList
  let lead := (cs.takeWhile (fun c => c == '.')).length
  match ((List.range cs.length).filter
      (fun i => decide (lead ≤ i) && decide (cs.getD i ' ' = '.'))).getLast? with
  | none => (s, "")
  | some i => (String.mk (cs.take i), String.mk (cs.drop i))

/-- The replacement name used on a flat-mode collision:
`f"{file_name}_{unique_id}{file_extension}"`. -/
def uuidName (u : String) (base : String) : String :=
  (splitext base).1 ++ "_" ++ u ++ (splitext base).2

/-- Environment for the Copier: which `os.makedirs` and `shutil.copy2`
calls fail, and the stream of `uuid.uuid4()` values. -/
structure CopyEnv where
  mkdirFails : FPath → Bool
  copyFails : FPath → FPath → Bool
  uuids : Nat → String

/-- State threaded through the copy loop: the filesystem, the number of
uuids consumed so far, and the log. -/
structure CopyState where
  fs : FS
  uuidIdx : Nat
  log : List LogEvent
deriving DecidableEq

/-- `shutil.copy2(img, dest)` under the inner `try`: a failure (including a
vanished source) is logged and the loop continues. `copy2` duplicates the
whole `FileVal`, metadata included. -/
def tryCopy (env : CopyEnv) (img dest : FPath) (st : CopyState) : CopyState :=
  if env.copyFails img dest then
    { st with log := st.log ++ [.errorCopyFailed img dest] }
  else
    match st.fs.lookupFile img with
    | some v =>
      { st with fs := st.fs.setFile dest v, log := st.log ++ [.infoCopied img dest] }
    | none => { st with log := st.log ++ [.errorCopyFailed img dest] }

/-- The body of the copy loop for one selected file. The returned flag is
true when an exception escapes the loop body (only the per-subfolder
`os.makedirs` can raise here; `shutil.copy2` is wrapped in its own `try`). -/
def copyOneFile (env : CopyEnv) (output_dir : FPath) (maintain_structure : Bool)
    (subfolder : String) (img : FPath) (st : CopyState) : CopyState × Bool :=
  if maintain_structure then
    let dest_subdir := output_dir ++ [subfolder]
    if env.mkdirFails dest_subdir then (st, true)
    else
      let st1 : CopyState := { st with fs := st.fs.mkdirp dest_subdir }
      (tryCopy env img (dest_subdir ++ [basename img]) st1, false)
  else
    let dest0 := output_dir ++ [basename img]
    if st.fs.existsP dest0 then
      let newName := uuidName (env.uuids st.uuidIdx) (basename img)
      let st1 : CopyState :=
        { st with uuidIdx := st.uuidIdx + 1,
                  log := st.log ++ [.infoRenamed (basename img) newName] }
      (tryCopy env img (output_dir ++ [newName]) st1, false)
    else
      (tryCopy env img dest0 st, false)

/-- The inner loop over one subfolder's selected files; stops early when an
exception is raised. -/
def copyFilesInSub (env : CopyEnv) (output_dir : FPath) (maintain_structure : Bool)
    (subfolder : String) : List FPath → CopyState → CopyState × Bool
  | [], st => (st, false)
  | img :: rest, st =>
    match copyOneFile env output_dir maintain_structure subfolder img st with
    | (st1, true) => (st1, true)
    | (st1, false) => copyFilesInSub env output_dir maintain_structure subfolder rest st1

/-- The outer loop over the selection. -/
def copyAllSubs (env : CopyEnv) (output_dir : FPath) (maintain_structure : Bool) :
    List (String × List FPath) → CopyState → CopyState × Bool
  | [], st => (st, false)
  | e :: rest, st =>
    match copyFilesInSub env output_dir maintain_structure e.1 e.2 st with
    | (st1, true) => (st1, true)
    | (st1, false) => copyAllSubs env output_dir maintain_structure rest st1

/-- `copy_selected_images`: the whole body sits under one `try`, so any
escaping exception (creating the output directory, or a per-subfolder
directory) is logged and ends only the Copier stage. -/
def copy_selected_images (env : CopyEnv) (fs : FS)
    (selected_images_dict : List (String × List FPath)) (output_dir : FPath)
    (maintain_structure : Bool) : FS × List LogEvent :=
  if env.mkdirFails output_dir then (fs, [.errorCopyAll output_dir])
  else
    let st0 : CopyState := ⟨fs.mkdirp output_dir, 0, []⟩
    match copyAllSubs env output_dir maintain_structure selected_images_dict st0 with
    | (st, true) => (st.fs, st.log ++ [.errorCopyAll output_dir])
    | (st, false) => (st.fs, st.log ++ [.infoAllCopied output_dir])

/-- The parsed command-line arguments. -/
structure Args where
  root_folder : FPath
  num_images : Int
  display : Bool
  save_csv : Option FPath
  output_dir : Option FPath
  maintain_structure : Bool

/-- The log lines of the Display stage (no filesystem effect). -/
def displayLog (sel : List (String × List FPath)) : List LogEvent :=
  sel.flatMap (fun e => e.2.map (fun p => .infoDisplayed p))

/-- `main` (the name `main` itself is reserved in Lean): returns (exit status, final filesystem, log). An uncaught
exception from the selection stage ends the process with status 1. -/
def mainFn (env : CopyEnv) (csvFail : Bool) (rng : FPath → List Nat) (fs : FS)
    (args : Args) : Nat × FS × List LogEvent :=
  if ¬ fs.isDir args.root_folder then
    (1, fs, [.errorRootInvalid args.root_folder])
  else if args.num_images < 1 then
    (1, fs, [.errorNumImages])
  else
    match select_random_images_from_subfolders fs rng args.root_folder
        args.num_images.toNat with
    | .error _ => (1, fs, [.infoSelecting args.root_folder])
    | .ok (sel, log1) =>
      let log0 := LogEvent.infoSelecting args.root_folder :: log1
      if sel.isEmpty then
        (0, fs, log0 ++ [.infoNoImagesSelected])
      else
        let logD := if args.display then displayLog sel else []
        let r2 :=
          match args.save_csv with
          | some p => save_selected_images_to_csv csvFail fs sel p
          | none => (fs, [])
        let r3 :=
          match args.output_dir with
          | some d => copy_selected_images env r2.1 sel d args.maintain_structure
          | none => (r2.1, [])
        (0, r3.1, log0 ++ logD ++ r2.2 ++ r3.2 ++ [.infoCompleted])

/-! ### Concrete fixtures used to instantiate the theorems -/

/-- A small filesystem: root with subfolder `A` (three images) and an empty
subfolder `B`. -/
def exFS : FS :=
  { dirs := [["root"], ["root", "A"], ["root", "B"]],
    files := [(["root", "A", "a.jpg"], ⟨1, 10⟩), (["root", "A", "b.png"], ⟨2, 20⟩),
              (["root", "A", "c.gif"], ⟨3, 30⟩)],
    textFiles := [] }

/-- The candidate images of `exFS`'s subfolder `A`. -/
def exImagesA : List FPath :=
  [["root", "A", "a.jpg"], ["root", "A", "b.png"], ["root", "A", "c.gif"]]

/-- An empty-selection filesystem: root with a single subfolder holding no
image files. -/
def exFSEmpty : FS :=
  { dirs := [["root"], ["root", "B"]], files := [], textFiles := [] }

/-- A filesystem with stale files already at the flat and structured copy
destinations. -/
def exFSDest : FS :=
  { dirs := [["root"], ["root", "A"], ["root", "B"], ["out"], ["out", "A"]],
    files := [(["root", "A", "a.jpg"], ⟨1, 10⟩), (["root", "A", "b.png"], ⟨2, 20⟩),
              (["root", "A", "c.gif"], ⟨3, 30⟩), (["out", "A", "a.jpg"], ⟨99, 99⟩),
              (["out", "a.jpg"], ⟨99, 99⟩), (["out", "a_0.jpg"], ⟨98, 98⟩)],
    textFiles := [] }

/-- A filesystem with two different source files sharing the base name
`a.jpg` in different subfolders. -/
def exFSTwo : FS :=
  { dirs := [["root"], ["root", "A"], ["root", "C"]],
    files := [(["root", "A", "a.jpg"], ⟨1, 10⟩), (["root", "C", "a.jpg"], ⟨9, 90⟩)],
    textFiles := [] }

/-- A Copier environment where nothing fails. -/
def exEnv : CopyEnv :=
  { mkdirFails := fun _ => false, copyFails := fun _ _ => false,
    uuids := fun n => toString n }

/-- A Copier environment where creating any directory fails. -/
def exEnvMkdirFail : CopyEnv :=
  { exEnv with mkdirFails := fun _ => true }

/-- A Copier environment where every `shutil.copy2` fails. -/
def exEnvCopyFail : CopyEnv :=
  { exEnv with copyFails := fun _ _ => true }

/-- A Copier environment where directory creation and copying both fail. -/
def exEnvAllFail : CopyEnv :=
  { exEnv with mkdirFails := fun _ => true, copyFails := fun _ _ => true }

/-- A default argument record for `exFS`. -/
def exArgs : Args :=
  { root_folder := ["root"], num_images := 2, display := false,
    save_csv := some ["sel.csv"], output_dir := some ["out"],
    maintain_structure := false }

/-! ### Helper lemmas -/

instance {e a : Type} [DecidableEq e] [DecidableEq a] : DecidableEq (Except e a) :=
  fun x y =>
  match x, y with
  | .ok u, .ok v => if h : u = v then isTrue (by rw [h]) else isFalse (by simp [h])
  | .error u, .error v => if h : u = v then isTrue (by rw [h]) else isFalse (by simp [h])
  | .ok _, .error _ => isFalse (by simp)
  | .error _, .ok _ => isFalse (by simp)

theorem randomSample_length {α : Type} (rng : List Nat) (l : List α) (k : Nat)
    (h : k ≤ l.length) : (randomSample rng l k).length = k := by
  induction k generalizing rng l with
  | zero => simp [randomSample]
  | succ k ih =>
    match l with
    | [] => simp at h
    | x :: xs =>
      have hr : rng.headD 0 % (x :: xs).length < (x :: xs).length :=
        Nat.mod_lt _ (by simp)
      have h2 : k ≤ ((x :: xs).eraseIdx (rng.headD 0 % (x :: xs).length)).length := by
        rw [List.length_eraseIdx]
        simp only [if_pos hr]
        simp only [List.length_cons] at h ⊢
        omega
      simp only [randomSample]
      rw [List.length_cons, ih _ _ h2]

theorem randomSample_mem {α : Type} (rng : List Nat) (l : List α) (k : Nat) {y : α}
    (h : y ∈ randomSample rng l k) : y ∈ l := by
  induction k generalizing rng l with
  | zero => simp [randomSample] at h
  | succ k ih =>
    match l with
    | [] => simp [randomSample] at h
    | x :: xs =>
      have hr : rng.headD 0 % (x :: xs).length < (x :: xs).length :=
        Nat.mod_lt _ (by simp)
      simp only [randomSample, List.mem_cons] at h
      rcases h with h | h
      · rw [h, List.getD_eq_getElem _ _ hr]
        exact List.getElem_mem hr
      · exact (List.eraseIdx_sublist (x :: xs) _).mem (ih _ _ h)

theorem getElem_not_mem_eraseIdx {α : Type} (l : List α) (r : Nat) (hr : r < l.length)
    (hnd : l.Nodup) : l[r] ∉ l.eraseIdx r := by
  intro hmem
  rw [List.eraseIdx_eq_take_drop_succ] at hmem
  have hdecomp : l.take r ++ l[r] :: l.drop (r + 1) = l := by
    conv_rhs => rw [← List.take_append_drop r l]
    rw [List.drop_eq_getElem_cons hr]
  rw [← hdecomp, List.nodup_append] at hnd
  obtain ⟨h1, h2, h3⟩ := hnd
  rcases List.mem_append.1 hmem with hmem | hmem
  · exact h3 hmem (List.mem_cons_self _ _)
  · exact (List.nodup_cons.1 h2).1 hmem

theorem randomSample_nodup {α : Type} (rng : List Nat) (l : List α) (k : Nat)
    (hnd : l.Nodup) : (randomSample rng l k).Nodup := by
  induction k generalizing rng l with
  | zero => simp [randomSample]
  | succ k ih =>
    match l with
    | [] => simp [randomSample]
    | x :: xs =>
      have hr : rng.headD 0 % (x :: xs).length < (x :: xs).length :=
        Nat.mod_lt _ (by simp)
      simp only [randomSample, List.nodup_cons]
      refine ⟨?_, ih _ _ ((List.eraseIdx_sublist (x :: xs) _).nodup hnd)⟩
      rw [List.getD_eq_getElem _ _ hr]
      intro hmem
      exact getElem_not_mem_eraseIdx _ _ hr hnd (randomSample_mem _ _ _ hmem)

theorem child_eq_append_singleton (q p : FPath) (n : String)
    (h : isChildOf q p = true) (hn : q.getLast? = some n) : q = p ++ [n] := by
  simp only [isChildOf, Bool.and_eq_true, decide_eq_true_eq] at h
  obtain ⟨htake, hlen⟩ := h
  have hdrop : (q.drop p.length).length = 1 := by
    rw [List.length_drop]; omega
  obtain ⟨m, hm⟩ := List.length_eq_one.1 hdrop
  have hq : q = p ++ [m] := by
    conv_lhs => rw [← List.take_append_drop p.length q]
    rw [htake, hm]
  rw [hq, List.getLast?_concat] at hn
  rw [hq, Option.some.inj hn]

theorem childNames_nodup (fs : FS) (p : FPath) (hWF : fs.WF) :
    (fs.childNames p).Nodup := by
  apply List.Nodup.filterMap _ hWF
  intro q q' n hq hq'
  by_cases h1 : isChildOf q p = true
  · by_cases h2 : isChildOf q' p = true
    · rw [if_pos h1, Option.mem_def] at hq
      rw [if_pos h2, Option.mem_def] at hq'
      rw [child_eq_append_singleton q p n h1 hq,
        child_eq_append_singleton q' p n h2 hq']
    · rw [if_neg h2] at hq'
      exact absurd hq' (Option.not_mem_none n)
  · rw [if_neg h1] at hq
    exact absurd hq (Option.not_mem_none n)

theorem get_image_files_ok (fs : FS) (p : FPath) (h : fs.isDir p = true) :
    get_image_files fs p =
      .ok (((fs.childNames p).filter
          (fun f => isImageName f && fs.isFile (p ++ [f]))).map (fun f => p ++ [f])) := by
  simp [get_image_files, listdir, h]

theorem get_image_files_nodup (fs : FS) (p : FPath) (l : List FPath) (hWF : fs.WF)
    (h : get_image_files fs p = .ok l) : l.Nodup := by
  by_cases hd : fs.isDir p = true
  · rw [get_image_files_ok fs p hd] at h
    have hl := Except.ok.inj h
    rw [← hl]
    apply List.Nodup.map
    · intro a b hab
      simpa using List.append_cancel_left hab
    · exact List.Nodup.filter _ (childNames_nodup fs p hWF)
  · simp [get_image_files, listdir, hd] at h

theorem get_subdirectories_ok (fs : FS) (root : FPath) (h : fs.isDir root = true) :
    get_subdirectories fs root =
      .ok (((fs.childNames root).filter
          (fun d => fs.isDir (root ++ [d]))).map (fun d => root ++ [d])) := by
  simp [get_subdirectories, listdir, h]

theorem get_subdirectories_isDir (fs : FS) (root : FPath) (ds : List FPath)
    (h : get_subdirectories fs root = .ok ds) : ∀ d ∈ ds, fs.isDir d = true := by
  intro d hd
  by_cases hr : fs.isDir root = true
  · rw [get_subdirectories_ok fs root hr] at h
    rw [← Except.ok.inj h] at hd
    obtain ⟨n, hn, hdn⟩ := List.mem_map.1 hd
    rw [← hdn]
    exact (List.mem_filter.1 hn).2
  · simp [get_subdirectories, listdir, hr] at h

theorem select_single_ok (fs : FS) (rng : List Nat) (d : FPath) (n : Nat)
    (h : fs.isDir d = true) :
    ∃ r, select_images_from_single_subfolder fs rng d n = .ok r := by
  rw [select_images_from_single_subfolder, get_image_files_ok fs d h]
  dsimp only
  split
  · exact ⟨_, rfl⟩
  · split
    · exact ⟨_, rfl⟩
    · exact ⟨_, rfl⟩

theorem selectLoop_ok (fs : FS) (rng : FPath → List Nat) (n : Nat) (ds : List FPath)
    (h : ∀ d ∈ ds, fs.isDir d = true) : ∃ r, selectLoop fs rng n ds = .ok r := by
  induction ds with
  | nil => exact ⟨([], []), rfl⟩
  | cons d rest ih =>
    obtain ⟨⟨⟨name, sel⟩, log1⟩, h1⟩ :=
      select_single_ok fs (rng d) d n (h d (List.mem_cons_self _ _))
    obtain ⟨⟨selRest, log2⟩, h2⟩ := ih (fun x hx => h x (List.mem_cons_of_mem _ hx))
    refine ⟨((if sel.isEmpty then selRest else (name, sel) :: selRest), log1 ++ log2), ?_⟩
    rw [selectLoop, h1, h2]

theorem select_random_ok (fs : FS) (rng : FPath → List Nat) (root : FPath) (n : Nat)
    (h : fs.isDir root = true) :
    ∃ r, select_random_images_from_subfolders fs rng root n = .ok r := by
  rw [select_random_images_from_subfolders, get_subdirectories_ok fs root h]
  dsimp only
  split
  · exact ⟨_, rfl⟩
  · exact selectLoop_ok fs rng n _
      (get_subdirectories_isDir fs root _ (get_subdirectories_ok fs root h))

theorem find?_filter_keep {α : Type} (l : List α) (p f : α → Bool)
    (h : ∀ x, p x = true → f x = true) : (l.filter f).find? p = l.find? p := by
  induction l with
  | nil => rfl
  | cons x xs ih =>
    by_cases hp : p x = true
    · rw [List.filter_cons, if_pos (h x hp)]
      simp [List.find?_cons, hp, ih]
    · by_cases hf : f x = true
      · simp only [List.filter_cons, if_pos hf, List.find?_cons]
        simp only [Bool.not_eq_true] at hp
        rw [hp]
        exact ih
      · simp only [List.filter_cons, if_neg hf]
        rw [ih, List.find?_cons]
        simp only [Bool.not_eq_true] at hp
        rw [hp]

theorem lookupFile_setFile_same (fs : FS) (p : FPath) (v : FileVal) :
    (fs.setFile p v).lookupFile p = some v := by
  simp only [FS.lookupFile, FS.setFile, List.find?_append]
  have h1 : (fs.files.filter (fun e => !(e.1 == p))).find? (fun e => e.1 == p) = none := by
    rw [List.find?_eq_none]
    intro x hx
    have := (List.mem_filter.1 hx).2
    simp only [Bool.not_eq_eq_eq_not, Bool.not_true] at this
    simp [this]
  rw [h1]
  simp [List.find?_cons]

theorem lookupFile_setFile_other (fs : FS) (p : FPath) (v : FileVal) (q : FPath)
    (h : q ≠ p) : (fs.setFile p v).lookupFile q = fs.lookupFile q := by
  simp only [FS.lookupFile, FS.setFile, List.find?_append]
  have h1 : (fs.files.filter (fun e => !(e.1 == p))).find? (fun e => e.1 == q) =
      fs.files.find? (fun e => e.1 == q) := by
    apply find?_filter_keep
    intro x hx
    have hq : x.1 = q := by simpa using hx
    simp [hq, h]
  rw [h1]
  have h2 : List.find? (fun e => e.1 == q) [(p, v)] = none := by
    simp [List.find?_cons, Ne.symm h]
  rw [h2]
  cases fs.files.find? (fun e => e.1 == q) <;> rfl

theorem lookupFile_mkdirp (fs : FS) (d q : FPath) :
    (fs.mkdirp d).lookupFile q = fs.lookupFile q := by
  simp only [FS.mkdirp]
  split <;> rfl

theorem lookupText_setTextFile_same (fs : FS) (p : FPath) (rows : List (List String)) :
    (fs.setTextFile p rows).lookupText p = some rows := by
  simp [FS.lookupText, FS.setTextFile, List.find?_cons]

theorem isDir_mkdirp_self (fs : FS) (d : FPath) : (fs.mkdirp d).isDir d = true := by
  simp only [FS.mkdirp]
  split
  · assumption
  · simp [FS.isDir]

theorem isDir_setFile (fs : FS) (p : FPath) (v : FileVal) (q : FPath) :
    (fs.setFile p v).isDir q = fs.isDir q := rfl

theorem existsP_setFile_same (fs : FS) (p : FPath) (v : FileVal) :
    (fs.setFile p v).existsP p = true := by
  have hf : (fs.setFile p v).isFile p = true := by
    simp only [FS.isFile, FS.setFile, Bool.or_eq_true, decide_eq_true_eq]
    left
    simp only [List.map_append, List.mem_append]
    right
    simp
  simp [FS.existsP, hf]

theorem isFile_setFile_other (fs : FS) (p : FPath) (v : FileVal) (q : FPath)
    (h : q ≠ p) : (fs.setFile p v).isFile q = fs.isFile q := by
  simp only [FS.isFile, FS.setFile]
  have hmem : (q ∈ ((fs.files.filter (fun e => !(e.1 == p))) ++ [(p, v)]).map Prod.fst) ↔
      q ∈ fs.files.map Prod.fst := by
    simp only [List.map_append, List.mem_append, List.mem_map, List.mem_filter,
      List.map_cons, List.map_nil, List.mem_singleton]
    constructor
    · rintro (⟨e, ⟨he, _⟩, hq⟩ | hq)
      · exact ⟨e, he, hq⟩
      · exact absurd hq h
    · rintro ⟨e, he, hq⟩
      refine Or.inl ⟨e, ⟨he, ?_⟩, hq⟩
      subst hq
      simp [h]
  rw [decide_eq_decide.2 hmem]

theorem existsP_setFile_other (fs : FS) (p : FPath) (v : FileVal) (q : FPath)
    (h : q ≠ p) : (fs.setFile p v).existsP q = fs.existsP q := by
  simp only [FS.existsP, isFile_setFile_other fs p v q h]
  rfl

theorem existsP_mkdirp_other (fs : FS) (d q : FPath) (h : q ≠ d) :
    (fs.mkdirp d).existsP q = fs.existsP q := by
  simp only [FS.existsP, FS.mkdirp]
  split
  · rfl
  · simp only [FS.isDir, FS.isFile]
    have hmem : (q ∈ fs.dirs ++ [d]) ↔ q ∈ fs.dirs := by
      simp [h]
    rw [decide_eq_decide.2 hmem]

/-! ### Claim theorems -/

/-- C1: for a subfolder whose candidate image list has at least `N ≥ 1`
entries, the Sampler returns exactly `N` distinct elements, each drawn from
the candidate list, chosen without replacement; for a subfolder with fewer
than `N` candidates it returns the entire candidate list unmodified. -/
theorem sampler_count_membership_no_replacement (fs : FS) (rng : List Nat)
    (subdir : FPath) (N : Nat) (images : List FPath) (hWF : fs.WF) (hN : 1 ≤ N)
    (himg : get_image_files fs subdir = .ok images) :
    (N ≤ images.length →
      select_images_from_single_subfolder fs rng subdir N =
        .ok ((basename subdir, randomSample rng images N), []) ∧
      (randomSample rng images N).length = N ∧
      (randomSample rng images N).Nodup ∧
      ∀ x ∈ randomSample rng images N, x ∈ images) ∧
    (images.length < N →
      ∃ log, select_images_from_single_subfolder fs rng subdir N =
        .ok ((basename subdir, images), log)) := by
  constructor
  · intro hle
    have hne : images.isEmpty = false := by
      cases images with
      | nil => simp at hle; omega
      | cons a l => rfl
    have hnlt : ¬ images.length < N := not_lt.2 hle
    refine ⟨?_, randomSample_length rng images N hle,
      randomSample_nodup rng images N (get_image_files_nodup fs subdir images hWF himg),
      fun x hx => randomSample_mem rng images N hx⟩
    unfold select_images_from_single_subfolder
    rw [himg]
    simp [hne, hnlt]
  · intro hlt
    cases hne : images.isEmpty with
    | true =>
      have hnil : images = [] := List.isEmpty_iff.1 hne
      refine ⟨[.warnNoImages subdir], ?_⟩
      unfold select_images_from_single_subfolder
      rw [himg]
      simp [hne, hnil]
    | false =>
      refine ⟨[.infoFewer subdir N images.length], ?_⟩
      unfold select_images_from_single_subfolder
      rw [himg]
      simp [hne, hlt]

/-- Witness for C1, at `exFS`'s subfolder `A` (3 candidates) with `N = 2`. -/
theorem sampler_count_membership_no_replacement_witness :
    (randomSample [0] exImagesA 2).length = 2 ∧ (randomSample [0] exImagesA 2).Nodup :=
  ⟨((sampler_count_membership_no_replacement exFS [0] ["root", "A"] 2 exImagesA
      (by show exFS.allPaths.Nodup; decide) (by decide) (by rfl)).1 (by decide)).2.1,
   ((sampler_count_membership_no_replacement exFS [0] ["root", "A"] 2 exImagesA
      (by show exFS.allPaths.Nodup; decide) (by decide) (by rfl)).1 (by decide)).2.2.1⟩

/-- C2 as stated is false: on a non-existent subdirectory the file-listing
operation propagates a file-not-found error; it does not yield an empty
list. -/
theorem missing_subdir_errors_counterexample :
    get_image_files ⟨[], [], []⟩ ["missing"] = .error (.fileNotFound ["missing"]) ∧
    get_image_files ⟨[], [], []⟩ ["missing"] ≠ .ok [] := by
  exact ⟨rfl, by decide⟩

/-- C2 (amended): an existing empty subdirectory yields an empty file list
(not an error) and is skipped by the Sampler with a warning logged; a
non-existent subdirectory instead makes the file-listing operation raise. -/
theorem empty_subfolder_empty_list_and_skipped (fs : FS) (subdir p : FPath)
    (rng : FPath → List Nat) (n : Nat) (rest : List FPath)
    (hdir : fs.isDir subdir = true) (hempty : fs.childNames subdir = [])
    (hmiss : fs.isDir p = false) :
    get_image_files fs subdir = .ok [] ∧
    select_images_from_single_subfolder fs (rng subdir) subdir n =
      .ok ((basename subdir, []), [.warnNoImages subdir]) ∧
    (∀ sel log, selectLoop fs rng n (subdir :: rest) = .ok (sel, log) →
      ∃ log2, selectLoop fs rng n rest = .ok (sel, log2) ∧
        log = .warnNoImages subdir :: log2) ∧
    get_image_files fs p = .error (.fileNotFound p) := by
  have h1 : get_image_files fs subdir = .ok [] := by
    rw [get_image_files_ok fs subdir hdir, hempty]
    rfl
  have h2 : select_images_from_single_subfolder fs (rng subdir) subdir n =
      .ok ((basename subdir, []), [.warnNoImages subdir]) := by
    unfold select_images_from_single_subfolder
    rw [h1]
    rfl
  refine ⟨h1, h2, ?_, ?_⟩
  · intro sel log h
    unfold selectLoop at h
    rw [h2] at h
    cases hrest : selectLoop fs rng n rest with
    | error e => rw [hrest] at h; exact absurd h (by simp)
    | ok r =>
      obtain ⟨selRest, log2⟩ := r
      rw [hrest] at h
      simp only [List.isEmpty_nil, if_true, List.singleton_append, Except.ok.injEq,
        Prod.mk.injEq] at h
      exact ⟨log2, by rw [← h.1], by rw [← h.2]⟩
  · simp [get_image_files, listdir, hmiss]

/-- Witness for the amended C2, at `exFS`'s empty subfolder `B` and the
missing path `missing`. -/
theorem empty_subfolder_empty_list_and_skipped_witness :
    get_image_files exFS ["root", "B"] = .ok [] ∧
    select_images_from_single_subfolder exFS [] ["root", "B"] 2 =
      .ok (("B", []), [.warnNoImages ["root", "B"]]) ∧
    (∀ sel log, selectLoop exFS (fun _ => []) 2 [["root", "B"]] = .ok (sel, log) →
      ∃ log2, selectLoop exFS (fun _ => []) 2 [] = .ok (sel, log2) ∧
        log = .warnNoImages ["root", "B"] :: log2) ∧
    get_image_files exFS ["missing"] = .error (.fileNotFound ["missing"]) :=
  empty_subfolder_empty_list_and_skipped exFS ["root", "B"] ["missing"]
    (fun _ => []) 2 [] (by decide) (by decide) (by decide)

/-- C3: exit status 0 on success (including runs that select nothing),
exit status 1 when the root folder is not a directory or `num_images < 1`;
in the fatal cases the run ends with the filesystem untouched and only the
fatal message logged, before any directory scan or sampling. -/
theorem exit_codes_fatal_before_any_effect (env : CopyEnv) (csvFail : Bool)
    (rng : FPath → List Nat) (fs : FS) (args : Args) :
    (fs.isDir args.root_folder = false →
      mainFn env csvFail rng fs args = (1, fs, [.errorRootInvalid args.root_folder])) ∧
    (fs.isDir args.root_folder = true → args.num_images < 1 →
      mainFn env csvFail rng fs args = (1, fs, [.errorNumImages])) ∧
    (fs.isDir args.root_folder = true → 1 ≤ args.num_images →
      (mainFn env csvFail rng fs args).1 = 0) := by
  refine ⟨?_, ?_, ?_⟩
  · intro h
    simp [mainFn, h]
  · intro h hn
    simp [mainFn, h, hn]
  · intro h hn
    have hlt : ¬ args.num_images < 1 := by omega
    obtain ⟨⟨sel, log1⟩, hr⟩ :=
      select_random_ok fs rng args.root_folder args.num_images.toNat h
    simp only [mainFn, h, hlt]
    rw [hr]
    by_cases hemp : sel.isEmpty <;> simp [hemp]

/-- Witness for C3: the fatal `num_images = 0` case and a successful run on
`exFS`. -/
theorem exit_codes_fatal_before_any_effect_witness :
    mainFn exEnv false (fun _ => [0]) exFS { exArgs with num_images := 0 } =
      (1, exFS, [.errorNumImages]) ∧
    (mainFn exEnv false (fun _ => [0]) exFS exArgs).1 = 0 :=
  ⟨(exit_codes_fatal_before_any_effect exEnv false (fun _ => [0]) exFS
      { exArgs with num_images := 0 }).2.1 (by decide) (by decide),
   (exit_codes_fatal_before_any_effect exEnv false (fun _ => [0]) exFS exArgs).2.2
      (by decide) (by decide)⟩

/-- C5: the CSV export writes the header row followed by exactly one row per
(subfolder, image path) pair in the iteration order of the Selection (and,
within a subfolder, in the Sampler's order), overwrites the target file, and
parsing the exported rows reproduces exactly the Selection's pairs. -/
theorem csv_header_rows_overwrite_roundtrip (fs : FS)
    (sel : List (String × List FPath)) (p : FPath) :
    (save_selected_images_to_csv false fs sel p).1.lookupText p = some (csvRows sel) ∧
    csvRows sel = ["Subfolder", "Image Path"] ::
      sel.flatMap (fun e => e.2.map (fun q => [e.1, pathStr q])) ∧
    parseCsv (csvRows sel) = selPairs sel := by
  refine ⟨?_, rfl, ?_⟩
  · simp only [save_selected_images_to_csv, Bool.false_eq_true, if_false]
    exact lookupText_setTextFile_same fs p (csvRows sel)
  · simp only [parseCsv, csvRows, selPairs, List.drop_succ_cons, List.drop_zero,
      List.map_flatMap, List.map_map]
    rfl

/-- C9: when the Selection is empty the program exits with status 0 before
the Reporter or Copier stages run: the filesystem is returned unchanged (no
CSV file, no output directory), even when `save_csv` and `output_dir` are
supplied. -/
theorem empty_selection_exits_zero_no_effects (env : CopyEnv) (csvFail : Bool)
    (rng : FPath → List Nat) (fs : FS) (args : Args) (log1 : List LogEvent)
    (hroot : fs.isDir args.root_folder = true)
    (hn : 1 ≤ args.num_images)
    (hsel : select_random_images_from_subfolders fs rng args.root_folder
      args.num_images.toNat = .ok ([], log1)) :
    mainFn env csvFail rng fs args =
      (0, fs, (LogEvent.infoSelecting args.root_folder :: log1) ++
        [.infoNoImagesSelected]) := by
  have hlt : ¬ args.num_images < 1 := by omega
  simp only [mainFn, hroot, hlt]
  rw [hsel]
  simp

/-- Witness for C9: a root whose only subfolder holds no images, with
`save_csv` and `output_dir` both supplied. -/
theorem empty_selection_exits_zero_no_effects_witness :
    mainFn exEnv false (fun _ => []) exFSEmpty exArgs =
      (0, exFSEmpty, [LogEvent.infoSelecting ["root"], .warnNoImages ["root", "B"],
        .infoNoImagesSelected]) :=
  empty_selection_exits_zero_no_effects exEnv false (fun _ => []) exFSEmpty exArgs
    [.warnNoImages ["root", "B"]] (by decide) (by decide) (by decide)

theorem select_single_inv (fs : FS) (rng : List Nat) (d : FPath) (n : Nat)
    (name : String) (s : List FPath) (log1 : List LogEvent)
    (h : select_images_from_single_subfolder fs rng d n = .ok ((name, s), log1))
    (hne : s ≠ []) :
    name = basename d ∧ ∃ images, get_image_files fs d = .ok images ∧ images ≠ [] ∧
      ∀ x ∈ s, x ∈ images := by
  cases himg : get_image_files fs d with
  | error e =>
    unfold select_images_from_single_subfolder at h
    rw [himg] at h
    exact absurd h (by simp)
  | ok images =>
    unfold select_images_from_single_subfolder at h
    rw [himg] at h
    dsimp only at h
    by_cases he : images.isEmpty
    · rw [if_pos he] at h
      simp only [Except.ok.injEq, Prod.mk.injEq] at h
      exact absurd h.1.2.symm hne
    · rw [if_neg he] at h
      have himne : images ≠ [] := fun hn => he (by rw [hn]; rfl)
      by_cases hlt : images.length < n
      · rw [if_pos hlt] at h
        simp only [Except.ok.injEq, Prod.mk.injEq] at h
        exact ⟨h.1.1.symm, images, rfl, himne, by rw [← h.1.2]; exact fun x hx => hx⟩
      · rw [if_neg hlt] at h
        simp only [Except.ok.injEq, Prod.mk.injEq] at h
        refine ⟨h.1.1.symm, images, rfl, himne, ?_⟩
        rw [← h.1.2]
        exact fun x hx => randomSample_mem rng images n hx

theorem selectLoop_entries (fs : FS) (rng : FPath → List Nat) (n : Nat)
    (ds : List FPath) (sel : List (String × List FPath)) (log : List LogEvent)
    (h : selectLoop fs rng n ds = .ok (sel, log)) :
    ∀ e ∈ sel, e.2 ≠ [] ∧ ∃ subdir images, subdir ∈ ds ∧ basename subdir = e.1 ∧
      get_image_files fs subdir = .ok images ∧ images ≠ [] := by
  induction ds generalizing sel log with
  | nil =>
    unfold selectLoop at h
    simp only [Except.ok.injEq, Prod.mk.injEq] at h
    rw [← h.1]
    intro e he
    exact absurd he (List.not_mem_nil e)
  | cons d rest ih =>
    unfold selectLoop at h
    cases hsel : select_images_from_single_subfolder fs (rng d) d n with
    | error e => rw [hsel] at h; exact absurd h (by simp)
    | ok r =>
      obtain ⟨⟨name, s⟩, log1⟩ := r
      rw [hsel] at h
      cases hrest : selectLoop fs rng n rest with
      | error e => rw [hrest] at h; exact absurd h (by simp)
      | ok r2 =>
        obtain ⟨selRest, log2⟩ := r2
        rw [hrest] at h
        simp only [Except.ok.injEq, Prod.mk.injEq] at h
        intro e he
        rw [← h.1] at he
        by_cases hse : s.isEmpty
        · rw [if_pos hse] at he
          obtain ⟨hne, subdir, images, hmem, hrest'⟩ := ih selRest log2 hrest e he
          exact ⟨hne, subdir, images, List.mem_cons_of_mem d hmem, hrest'⟩
        · rw [if_neg hse] at he
          rcases List.mem_cons.1 he with he | he
          · have hsne : s ≠ [] := fun hn => hse (by rw [hn]; rfl)
            obtain ⟨hname, images, himg, himne, hsub⟩ :=
              select_single_inv fs (rng d) d n name s log1 hsel hsne
            refine ⟨?_, d, images, List.mem_cons_self d rest, ?_, himg, himne⟩
            · rw [he]; exact hsne
            · rw [he, ← hname]
          · obtain ⟨hne, subdir, images, hmem, hrest'⟩ := ih selRest log2 hrest e he
            exact ⟨hne, subdir, images, List.mem_cons_of_mem d hmem, hrest'⟩

/-- C4: the Selection never contains an entry for a subfolder whose
candidate image list was empty: every entry carries a nonempty selection and
stems from a scanned subfolder whose candidate list was nonempty. -/
theorem selection_never_has_empty_entries (fs : FS) (rng : FPath → List Nat)
    (root : FPath) (n : Nat) (sel : List (String × List FPath)) (log : List LogEvent)
    (subdirs : List FPath)
    (hsub : get_subdirectories fs root = .ok subdirs)
    (h : select_random_images_from_subfolders fs rng root n = .ok (sel, log)) :
    ∀ e ∈ sel, e.2 ≠ [] ∧ ∃ subdir images, subdir ∈ subdirs ∧ basename subdir = e.1 ∧
      get_image_files fs subdir = .ok images ∧ images ≠ [] := by
  unfold select_random_images_from_subfolders at h
  rw [hsub] at h
  dsimp only at h
  by_cases he : subdirs.isEmpty
  · rw [if_pos he] at h
    simp only [Except.ok.injEq, Prod.mk.injEq] at h
    intro e hmem
    rw [← h.1] at hmem
    exact absurd hmem (List.not_mem_nil e)
  · rw [if_neg he] at h
    exact selectLoop_entries fs rng n subdirs sel log h

/-- Witness for C4, on `exFS` (subfolder `B` is empty and produces no
entry; the single entry, `A`'s, holds a nonempty list). -/
theorem selection_never_has_empty_entries_witness :
    (randomSample [0] exImagesA 2 : List FPath) ≠ [] :=
  (selection_never_has_empty_entries exFS (fun _ => [0]) ["root"] 2
    [("A", randomSample [0] exImagesA 2)] [.warnNoImages ["root", "B"]]
    [["root", "A"], ["root", "B"]] (by rfl) (by rfl)
    ("A", randomSample [0] exImagesA 2) (List.mem_cons_self _ _)).1

theorem append_singleton_ne (out : FPath) (x : String) : out ++ [x] ≠ out := by
  intro h
  have := congrArg List.length h
  simp at this

theorem append_singleton_eq_iff (out : FPath) (a b : String) :
    out ++ [a] = out ++ [b] ↔ a = b := by
  constructor
  · intro h
    simpa using List.append_cancel_left h
  · intro h
    rw [h]

theorem tryCopy_fail (env : CopyEnv) (img dest : FPath) (st : CopyState)
    (h : env.copyFails img dest = true) :
    tryCopy env img dest st = { st with log := st.log ++ [.errorCopyFailed img dest] } := by
  unfold tryCopy
  rw [if_pos h]

theorem copyOneFile_flat_no_collision (env : CopyEnv) (out : FPath) (sub : String)
    (img : FPath) (st : CopyState) (v : FileVal)
    (hex : st.fs.existsP (out ++ [basename img]) = false)
    (hcf : env.copyFails img (out ++ [basename img]) = false)
    (hsrc : st.fs.lookupFile img = some v) :
    copyOneFile env out false sub img st =
      ({ st with fs := st.fs.setFile (out ++ [basename img]) v,
                 log := st.log ++ [.infoCopied img (out ++ [basename img])] }, false) := by
  unfold copyOneFile tryCopy
  simp [hex, hcf, hsrc]

theorem copyOneFile_flat_collision (env : CopyEnv) (out : FPath) (sub : String)
    (img : FPath) (st : CopyState) (v : FileVal)
    (hex : st.fs.existsP (out ++ [basename img]) = true)
    (hcf : env.copyFails img
      (out ++ [uuidName (env.uuids st.uuidIdx) (basename img)]) = false)
    (hsrc : st.fs.lookupFile img = some v) :
    copyOneFile env out false sub img st =
      ({ st with
          fs := st.fs.setFile (out ++ [uuidName (env.uuids st.uuidIdx) (basename img)]) v,
          uuidIdx := st.uuidIdx + 1,
          log := st.log ++ [.infoRenamed (basename img)
              (uuidName (env.uuids st.uuidIdx) (basename img)),
            .infoCopied img (out ++ [uuidName (env.uuids st.uuidIdx) (basename img)])] },
        false) := by
  unfold copyOneFile tryCopy
  simp [hex, hcf, hsrc]

theorem copyOneFile_structure_ok (env : CopyEnv) (out : FPath) (sub : String)
    (img : FPath) (st : CopyState) (v : FileVal)
    (hmk : env.mkdirFails (out ++ [sub]) = false)
    (hcf : env.copyFails img (out ++ [sub] ++ [basename img]) = false)
    (hsrc : st.fs.lookupFile img = some v) :
    copyOneFile env out true sub img st =
      ({ st with
          fs := (st.fs.mkdirp (out ++ [sub])).setFile (out ++ [sub] ++ [basename img]) v,
          log := st.log ++ [.infoCopied img (out ++ [sub] ++ [basename img])] },
        false) := by
  unfold copyOneFile tryCopy
  simp only [List.append_assoc, List.singleton_append] at hcf
  simp [hmk, hcf, lookupFile_mkdirp, hsrc]

/-- C7: in structure-preserving mode a subdirectory named after the
Subfolder is ensured under the output directory and the file is copied
there under its original base name; a pre-existing destination file is
silently overwritten (no rename event, no existence check) and the copy
carries over the source's whole value, metadata (`mtime`) included. -/
theorem structure_mode_overwrites_and_keeps_metadata (env : CopyEnv) (out : FPath)
    (sub : String) (img : FPath) (st : CopyState) (v : FileVal)
    (hmk : env.mkdirFails (out ++ [sub]) = false)
    (hcf : env.copyFails img (out ++ [sub] ++ [basename img]) = false)
    (hsrc : st.fs.lookupFile img = some v) :
    copyOneFile env out true sub img st =
      ({ st with
          fs := (st.fs.mkdirp (out ++ [sub])).setFile (out ++ [sub] ++ [basename img]) v,
          log := st.log ++ [.infoCopied img (out ++ [sub] ++ [basename img])] },
        false) ∧
    (copyOneFile env out true sub img st).1.fs.isDir (out ++ [sub]) = true ∧
    (copyOneFile env out true sub img st).1.fs.lookupFile
      (out ++ [sub] ++ [basename img]) = some v ∧
    ((copyOneFile env out true sub img st).1.fs.lookupFile
      (out ++ [sub] ++ [basename img])).map FileVal.mtime = some v.mtime := by
  have h1 := copyOneFile_structure_ok env out sub img st v hmk hcf hsrc
  have h2 : (copyOneFile env out true sub img st).1.fs.lookupFile
      (out ++ [sub] ++ [basename img]) = some v := by
    rw [h1]
    exact lookupFile_setFile_same _ _ _
  refine ⟨h1, ?_, h2, ?_⟩
  · rw [h1]
    show ((st.fs.mkdirp (out ++ [sub])).setFile _ _).isDir _ = true
    rw [isDir_setFile]
    exact isDir_mkdirp_self _ _
  · rw [h2]
    rfl

/-- Witness for C7: copying `root/A/a.jpg` into `out/A/` where a stale
`out/A/a.jpg` with different contents and metadata already exists. -/
theorem structure_mode_overwrites_and_keeps_metadata_witness :
    (copyOneFile exEnv ["out"] true "A" ["root", "A", "a.jpg"]
        ⟨exFSDest, 0, []⟩).1.fs.lookupFile (["out"] ++ ["A"] ++ ["a.jpg"]) =
      some ⟨1, 10⟩ :=
  (structure_mode_overwrites_and_keeps_metadata exEnv ["out"] "A"
    ["root", "A", "a.jpg"] ⟨exFSDest, 0, []⟩ ⟨1, 10⟩ rfl rfl (by rfl)).2.2.1

/-- C10: in flat mode the destination-existence check happens exactly once
per file, on the original base name: when that name is taken, the
uuid-suffixed replacement path is used without being re-checked, so a file
already present at the suffixed path is overwritten (one rename event, one
uuid consumed, no second rename). -/
theorem flat_mode_suffixed_dest_not_rechecked (env : CopyEnv) (out : FPath)
    (sub : String) (img : FPath) (st : CopyState) (v : FileVal)
    (hex0 : st.fs.existsP (out ++ [basename img]) = true)
    (_hexU : st.fs.existsP
      (out ++ [uuidName (env.uuids st.uuidIdx) (basename img)]) = true)
    (hcf : env.copyFails img
      (out ++ [uuidName (env.uuids st.uuidIdx) (basename img)]) = false)
    (hsrc : st.fs.lookupFile img = some v) :
    copyOneFile env out false sub img st =
      ({ st with
          fs := st.fs.setFile
            (out ++ [uuidName (env.uuids st.uuidIdx) (basename img)]) v,
          uuidIdx := st.uuidIdx + 1,
          log := st.log ++ [.infoRenamed (basename img)
              (uuidName (env.uuids st.uuidIdx) (basename img)),
            .infoCopied img
              (out ++ [uuidName (env.uuids st.uuidIdx) (basename img)])] },
        false) ∧
    (copyOneFile env out false sub img st).1.fs.lookupFile
      (out ++ [uuidName (env.uuids st.uuidIdx) (basename img)]) = some v ∧
    (copyOneFile env out false sub img st).1.uuidIdx = st.uuidIdx + 1 := by
  have h1 := copyOneFile_flat_collision env out sub img st v hex0 hcf hsrc
  refine ⟨h1, ?_, ?_⟩
  · rw [h1]
    exact lookupFile_setFile_same _ _ _
  · rw [h1]

/-- Witness for C10: `out/a.jpg` and the suffixed `out/a_0.jpg` both exist
already; the copy still targets `out/a_0.jpg` and overwrites it. -/
theorem flat_mode_suffixed_dest_not_rechecked_witness :
    (copyOneFile exEnv ["out"] false "A" ["root", "A", "a.jpg"]
        ⟨exFSDest, 0, []⟩).1.fs.lookupFile (["out"] ++ ["a_0.jpg"]) = some ⟨1, 10⟩ ∧
    (copyOneFile exEnv ["out"] false "A" ["root", "A", "a.jpg"]
        ⟨exFSDest, 0, []⟩).1.uuidIdx = 1 :=
  ⟨(flat_mode_suffixed_dest_not_rechecked exEnv ["out"] "A" ["root", "A", "a.jpg"]
      ⟨exFSDest, 0, []⟩ ⟨1, 10⟩ (by decide) (by decide) rfl (by rfl)).2.1,
   (flat_mode_suffixed_dest_not_rechecked exEnv ["out"] "A" ["root", "A", "a.jpg"]
      ⟨exFSDest, 0, []⟩ ⟨1, 10⟩ (by decide) (by decide) rfl (by rfl)).2.2⟩

/-- C6: in flat mode every selected file is copied into the output directory
under its original base name unless that name is already taken, in which
case a fresh uuid-suffixed name is used instead of overwriting; two
different sources sharing a base name end up as two distinct files on disk,
the second renamed, both with their source's contents. -/
theorem flat_mode_collision_safe_two_files (env : CopyEnv) (out : FPath)
    (sub : String) (img : FPath) (st : CopyState) (v : FileVal)
    (s1 s2 : String) (p1 p2 : FPath) (fs : FS) (v1 v2 : FileVal) :
    (st.fs.existsP (out ++ [basename img]) = false →
      env.copyFails img (out ++ [basename img]) = false →
      st.fs.lookupFile img = some v →
      copyOneFile env out false sub img st =
        ({ st with fs := st.fs.setFile (out ++ [basename img]) v,
                   log := st.log ++ [.infoCopied img (out ++ [basename img])] },
          false)) ∧
    (st.fs.existsP (out ++ [basename img]) = true →
      uuidName (env.uuids st.uuidIdx) (basename img) ≠ basename img →
      env.copyFails img
        (out ++ [uuidName (env.uuids st.uuidIdx) (basename img)]) = false →
      st.fs.lookupFile img = some v →
      (copyOneFile env out false sub img st).1.fs.lookupFile
          (out ++ [uuidName (env.uuids st.uuidIdx) (basename img)]) = some v ∧
      (copyOneFile env out false sub img st).1.fs.lookupFile (out ++ [basename img]) =
        st.fs.lookupFile (out ++ [basename img])) ∧
    (basename p2 = basename p1 →
      env.mkdirFails out = false →
      fs.existsP (out ++ [basename p1]) = false →
      fs.lookupFile p1 = some v1 →
      fs.lookupFile p2 = some v2 →
      p2 ≠ out ++ [basename p1] →
      env.copyFails p1 (out ++ [basename p1]) = false →
      env.copyFails p2 (out ++ [uuidName (env.uuids 0) (basename p2)]) = false →
      uuidName (env.uuids 0) (basename p2) ≠ basename p1 →
      (copy_selected_images env fs [(s1, [p1]), (s2, [p2])] out false).1.lookupFile
          (out ++ [basename p1]) = some v1 ∧
      (copy_selected_images env fs [(s1, [p1]), (s2, [p2])] out false).1.lookupFile
          (out ++ [uuidName (env.uuids 0) (basename p2)]) = some v2 ∧
      out ++ [basename p1] ≠ out ++ [uuidName (env.uuids 0) (basename p2)] ∧
      LogEvent.infoRenamed (basename p2) (uuidName (env.uuids 0) (basename p2)) ∈
        (copy_selected_images env fs [(s1, [p1]), (s2, [p2])] out false).2) := by
  refine ⟨?_, ?_, ?_⟩
  · intro hex hcf hsrc
    exact copyOneFile_flat_no_collision env out sub img st v hex hcf hsrc
  · intro hex hnn hcf hsrc
    have h1 := copyOneFile_flat_collision env out sub img st v hex hcf hsrc
    constructor
    · rw [h1]
      exact lookupFile_setFile_same _ _ _
    · rw [h1]
      show (st.fs.setFile _ _).lookupFile _ = _
      exact lookupFile_setFile_other _ _ _ _
        (fun h => hnn ((append_singleton_eq_iff out _ _).1 h).symm)
  · intro hb hmk hfr hsrc1 hsrc2 hp2 hcf1 hcf2 hnn
    have hd0out : out ++ [basename p1] ≠ out := append_singleton_ne out _
    have hstep1 : copyOneFile env out false s1 p1 ⟨fs.mkdirp out, 0, []⟩ =
        (⟨(fs.mkdirp out).setFile (out ++ [basename p1]) v1, 0,
          [.infoCopied p1 (out ++ [basename p1])]⟩, false) := by
      have hex : (fs.mkdirp out).existsP (out ++ [basename p1]) = false := by
        rw [existsP_mkdirp_other fs out _ hd0out]
        exact hfr
      have hsrc : (fs.mkdirp out).lookupFile p1 = some v1 := by
        rw [lookupFile_mkdirp]
        exact hsrc1
      exact copyOneFile_flat_no_collision env out s1 p1 _ v1 hex hcf1 hsrc
    have hstep2 : copyOneFile env out false s2 p2
        ⟨(fs.mkdirp out).setFile (out ++ [basename p1]) v1, 0,
          [.infoCopied p1 (out ++ [basename p1])]⟩ =
        (⟨((fs.mkdirp out).setFile (out ++ [basename p1]) v1).setFile
            (out ++ [uuidName (env.uuids 0) (basename p2)]) v2, 1,
          [.infoCopied p1 (out ++ [basename p1]),
           .infoRenamed (basename p2) (uuidName (env.uuids 0) (basename p2)),
           .infoCopied p2 (out ++ [uuidName (env.uuids 0) (basename p2)])]⟩, false) := by
      have hex : ((fs.mkdirp out).setFile (out ++ [basename p1]) v1).existsP
          (out ++ [basename p2]) = true := by
        rw [hb]
        exact existsP_setFile_same _ _ _
      have hsrc : ((fs.mkdirp out).setFile (out ++ [basename p1]) v1).lookupFile p2 =
          some v2 := by
        rw [lookupFile_setFile_other _ _ _ _ hp2, lookupFile_mkdirp]
        exact hsrc2
      exact copyOneFile_flat_collision env out s2 p2 _ v2 hex hcf2 hsrc
    have hrun : copy_selected_images env fs [(s1, [p1]), (s2, [p2])] out false =
        (((fs.mkdirp out).setFile (out ++ [basename p1]) v1).setFile
            (out ++ [uuidName (env.uuids 0) (basename p2)]) v2,
          [.infoCopied p1 (out ++ [basename p1]),
           .infoRenamed (basename p2) (uuidName (env.uuids 0) (basename p2)),
           .infoCopied p2 (out ++ [uuidName (env.uuids 0) (basename p2)]),
           .infoAllCopied out]) := by
      unfold copy_selected_images
      rw [hmk]
      simp only [Bool.false_eq_true, if_false]
      simp only [copyAllSubs, copyFilesInSub]
      rw [hstep1]
      dsimp only
      rw [hstep2]
      dsimp only
      rfl
    have hpne : out ++ [basename p1] ≠ out ++ [uuidName (env.uuids 0) (basename p2)] :=
      fun h => hnn ((append_singleton_eq_iff out _ _).1 h).symm
    refine ⟨?_, ?_, hpne, ?_⟩
    · rw [hrun]
      dsimp only
      rw [lookupFile_setFile_other _ _ _ _ hpne]
      exact lookupFile_setFile_same _ _ _
    · rw [hrun]
      dsimp only
      exact lookupFile_setFile_same _ _ _
    · rw [hrun]
      dsimp only
      simp

/-- Witness for C6: copying `root/A/a.jpg` and `root/C/a.jpg` flat into
`out` leaves the first at `out/a.jpg` and the second, renamed, at the
uuid-suffixed path, each with its own source value. -/
theorem flat_mode_collision_safe_two_files_witness :
    (copy_selected_images exEnv exFSTwo [("A", [["root", "A", "a.jpg"]]),
        ("C", [["root", "C", "a.jpg"]])] ["out"] false).1.lookupFile
      (["out"] ++ ["a.jpg"]) = some ⟨1, 10⟩ ∧
    (copy_selected_images exEnv exFSTwo [("A", [["root", "A", "a.jpg"]]),
        ("C", [["root", "C", "a.jpg"]])] ["out"] false).1.lookupFile
      (["out"] ++ [uuidName (exEnv.uuids 0) "a.jpg"]) = some ⟨9, 90⟩ ∧
    (["out"] ++ ["a.jpg"] : FPath) ≠ ["out"] ++ [uuidName (exEnv.uuids 0) "a.jpg"] :=
  ⟨((flat_mode_collision_safe_two_files exEnv ["out"] "A" [] ⟨exFSTwo, 0, []⟩ ⟨0, 0⟩
      "A" "C" ["root", "A", "a.jpg"] ["root", "C", "a.jpg"] exFSTwo ⟨1, 10⟩ ⟨9, 90⟩).2.2
      rfl rfl rfl rfl rfl (by decide) rfl rfl (by decide)).1,
   ((flat_mode_collision_safe_two_files exEnv ["out"] "A" [] ⟨exFSTwo, 0, []⟩ ⟨0, 0⟩
      "A" "C" ["root", "A", "a.jpg"] ["root", "C", "a.jpg"] exFSTwo ⟨1, 10⟩ ⟨9, 90⟩).2.2
      rfl rfl rfl rfl rfl (by decide) rfl rfl (by decide)).2.1,
   ((flat_mode_collision_safe_two_files exEnv ["out"] "A" [] ⟨exFSTwo, 0, []⟩ ⟨0, 0⟩
      "A" "C" ["root", "A", "a.jpg"] ["root", "C", "a.jpg"] exFSTwo ⟨1, 10⟩ ⟨9, 90⟩).2.2
      rfl rfl rfl rfl rfl (by decide) rfl rfl (by decide)).2.2.1⟩

/-- C8: a failure to copy an individual file is logged as a per-file error
and the Copier proceeds to the next file rather than aborting the batch; a
failure to create the output directory itself aborts the entire Copier
stage (nothing copied) but not the program: the run still exits 0 and the
CSV already written stays intact. -/
theorem copier_per_file_vs_stage_failures (env : CopyEnv) (out : FPath) (m : Bool)
    (sub : String) (img : FPath) (st : CopyState) (rest : List FPath) (fs : FS)
    (sel : List (String × List FPath)) (rng : FPath → List Nat) (args : Args)
    (cp od : FPath) (log1 : List LogEvent) :
    (∀ dest, env.copyFails img dest = true →
      tryCopy env img dest st =
        { st with log := st.log ++ [.errorCopyFailed img dest] }) ∧
    ((copyOneFile env out m sub img st).2 = false →
      copyFilesInSub env out m sub (img :: rest) st =
        copyFilesInSub env out m sub rest (copyOneFile env out m sub img st).1) ∧
    ((copyOneFile env out false sub img st).2 = false) ∧
    (env.mkdirFails out = true →
      copy_selected_images env fs sel out m = (fs, [.errorCopyAll out])) ∧
    (fs.isDir args.root_folder = true → 1 ≤ args.num_images →
      args.save_csv = some cp → args.output_dir = some od →
      env.mkdirFails od = true →
      select_random_images_from_subfolders fs rng args.root_folder
        args.num_images.toNat = .ok (sel, log1) →
      sel ≠ [] →
      (mainFn env false rng fs args).1 = 0 ∧
      (mainFn env false rng fs args).2.1.lookupText cp = some (csvRows sel)) := by
  refine ⟨?_, ?_, ?_, ?_, ?_⟩
  · intro dest h
    exact tryCopy_fail env img dest st h
  · intro h
    rcases hc : copyOneFile env out m sub img st with ⟨st1, raised⟩
    rw [hc] at h
    dsimp only at h
    subst h
    simp only [copyFilesInSub]
    rw [hc]
  · unfold copyOneFile
    simp only [Bool.false_eq_true, if_false]
    split
    · rfl
    · rfl
  · intro h
    unfold copy_selected_images
    rw [h, if_pos rfl]
  · intro hroot hn hcp hod hmk hsel hne
    have hlt : ¬ args.num_images < 1 := by omega
    have hemp : sel.isEmpty = false := by
      cases sel with
      | nil => exact absurd rfl hne
      | cons a l => rfl
    have hmain : mainFn env false rng fs args =
        (0, fs.setTextFile cp (csvRows sel),
          (LogEvent.infoSelecting args.root_folder :: log1) ++
            (if args.display then displayLog sel else []) ++ [.infoCsvSaved cp] ++
            [.errorCopyAll od] ++ [.infoCompleted]) := by
      simp only [mainFn, hroot, hlt]
      rw [hsel]
      dsimp only
      rw [hemp]
      simp only [Bool.false_eq_true, if_false]
      rw [hcp, hod]
      dsimp only
      unfold save_selected_images_to_csv copy_selected_images
      rw [hmk, if_pos rfl]
      simp only [Bool.false_eq_true, if_false]
      rfl
    constructor
    · rw [hmain]
    · rw [hmain]
      exact lookupText_setTextFile_same fs cp (csvRows sel)

/-- Witness for C8: with every `makedirs`/`copy2` call failing, the Copier
stage on `exFS` aborts leaving the filesystem untouched, while the full run
still exits 0 with the CSV written. -/
theorem copier_per_file_vs_stage_failures_witness :
    copy_selected_images exEnvAllFail exFS [("A", randomSample [0] exImagesA 2)]
      ["out"] false = (exFS, [.errorCopyAll ["out"]]) ∧
    (mainFn exEnvAllFail false (fun _ => [0]) exFS exArgs).1 = 0 ∧
    (mainFn exEnvAllFail false (fun _ => [0]) exFS exArgs).2.1.lookupText
      ["sel.csv"] = some (csvRows [("A", randomSample [0] exImagesA 2)]) :=
  ⟨(copier_per_file_vs_stage_failures exEnvAllFail ["out"] false "A"
      ["root", "A", "a.jpg"] ⟨exFS, 0, []⟩ [] exFS
      [("A", randomSample [0] exImagesA 2)] (fun _ => [0]) exArgs
      ["sel.csv"] ["out"] [.warnNoImages ["root", "B"]]).2.2.2.1 rfl,
   ((copier_per_file_vs_stage_failures exEnvAllFail ["out"] false "A"
      ["root", "A", "a.jpg"] ⟨exFS, 0, []⟩ [] exFS
      [("A", randomSample [0] exImagesA 2)] (fun _ => [0]) exArgs
      ["sel.csv"] ["out"] [.warnNoImages ["root", "B"]]).2.2.2.2
      (by decide) (by decide) rfl rfl rfl (by rfl) (by decide)).1,
   ((copier_per_file_vs_stage_failures exEnvAllFail ["out"] false "A"
      ["root", "A", "a.jpg"] ⟨exFS, 0, []⟩ [] exFS
      [("A", randomSample [0] exImagesA 2)] (fun _ => [0]) exArgs
      ["sel.csv"] ["out"] [.warnNoImages ["root", "B"]]).2.2.2.2
      (by decide) (by decide) rfl rfl rfl (by rfl) (by decide)).2⟩
